import Mathlib

/-!
Verification of the Discord Auto Reaction Bot's poll-dedupe-react control
loop, shallowly embedded from `src/index.js`.

The embedding mirrors the source:
* `Config` models the module-level `config` object (defaults from the code).
* `BackoffState` models the `consecutiveErrors` / `currentInterval`
  module variables; `handleRateLimitBackoff` and `handleSuccessfulOperation`
  are the two functions of the same names.
* `sortNewestFirst` models `messages.sort((a, b) => b.timestamp - a.timestamp)`
  as a stable insertion sort into descending-timestamp order.
* `computeDelta` models lines 185-202 of `checkAndReactToMessages`: the
  guard `latest.id !== lastProcessedMessageId`, the `findIndex` lookup and
  the `slice(0, lastProcessedIndex)` / `[latestMessage]` choice.
* `processMessage` models the per-message body of the `for...of` loop:
  the `message.author && message.author.bot` skip, the probability gate
  `Math.random() * 100 <= reactionProbability` (the random draw is an
  explicit argument), and `calculateHumanLikeDelay`.
* `checkAndReactToMessages` models the whole cycle as a function of the
  fetch outcome and the per-message random draws, returning the new state,
  the number of fetches issued and the ids scheduled for reaction.
* `handleReactionAttemptResult` models the catch block of the delayed
  reaction callback (lines 222-236): HTTP 429 goes to backoff, any other
  error is only logged.
* `changeReactionEmoji` models the exported function of the same name.
-/

namespace AutoReactionBot

/-- Author object attached to a fetched message; only the `bot` flag is read. -/
structure Author where
  bot : Bool
deriving Repr, DecidableEq

/-- A fetched message. `author` is optional: the code guards on
`message.author && message.author.bot`, so an absent author is possible. -/
structure Message where
  id : String
  author : Option Author
  content : String
  timestamp : Nat
deriving Repr, DecidableEq

/-- The configuration object of `src/index.js` (time quantities in
milliseconds, as rationals to model JS numeric arithmetic exactly on the
operations the code performs). -/
structure Config where
  channelId : String
  defaultEmoji : String
  reactionProbability : ℚ
  minReactionDelay : ℚ
  maxReactionDelay : ℚ
  baseCheckInterval : ℚ
  intervalVariation : ℚ
  consecutiveErrorThreshold : Nat
  backoffMultiplier : ℚ
  maxBackoffInterval : ℚ
deriving Repr, DecidableEq

/-- The hard-coded configuration values of `src/index.js` (channel id is
environment-supplied; a placeholder stands in for it). -/
def defaultConfig : Config where
  channelId := "channel"
  defaultEmoji := "🔥"
  reactionProbability := 85
  minReactionDelay := 1500
  maxReactionDelay := 6000
  baseCheckInterval := 8000
  intervalVariation := 4000
  consecutiveErrorThreshold := 3
  backoffMultiplier := 2
  maxBackoffInterval := 300000

/-- The backoff-related module state: `consecutiveErrors` and
`currentInterval`. -/
structure BackoffState where
  consecutiveErrors : Nat
  currentInterval : ℚ
deriving Repr, DecidableEq

/-- Initial backoff state: `consecutiveErrors = 0`,
`currentInterval = config.baseCheckInterval`. -/
def initialBackoffState (cfg : Config) : BackoffState where
  consecutiveErrors := 0
  currentInterval := cfg.baseCheckInterval

/-- `handleRateLimitBackoff` from `src/index.js`: increment
`consecutiveErrors`; once it reaches the threshold, multiply the interval
by the backoff multiplier, clamped above by `maxBackoffInterval`. -/
def handleRateLimitBackoff (cfg : Config) (s : BackoffState) : BackoffState :=
  let errs := s.consecutiveErrors + 1
  if cfg.consecutiveErrorThreshold ≤ errs then
    { consecutiveErrors := errs
      currentInterval := min (s.currentInterval * cfg.backoffMultiplier) cfg.maxBackoffInterval }
  else
    { s with consecutiveErrors := errs }

/-- `handleSuccessfulOperation` from `src/index.js`: only when
`consecutiveErrors > 0` does anything happen; the error count resets and,
if the interval is above base, it is divided by the multiplier and clamped
below by `baseCheckInterval`. Note the interval reduction is nested inside
the `consecutiveErrors > 0` test, exactly as in the source. -/
def handleSuccessfulOperation (cfg : Config) (s : BackoffState) : BackoffState :=
  if 0 < s.consecutiveErrors then
    if cfg.baseCheckInterval < s.currentInterval then
      { consecutiveErrors := 0
        currentInterval := max (s.currentInterval / cfg.backoffMultiplier) cfg.baseCheckInterval }
    else
      { s with consecutiveErrors := 0 }
  else s

/-- An observable event reported to the backoff controller. -/
inductive BackoffEvent where
  | failure
  | success
deriving Repr, DecidableEq

/-- One backoff controller step: `failure` is `handleRateLimitBackoff`
(the onFailure path), `success` is `handleSuccessfulOperation`. -/
def backoffStep (cfg : Config) (s : BackoffState) : BackoffEvent → BackoffState
  | .failure => handleRateLimitBackoff cfg s
  | .success => handleSuccessfulOperation cfg s

/-- Run a sequence of backoff events from a state. -/
def runBackoff (cfg : Config) (s : BackoffState) (events : List BackoffEvent) : BackoffState :=
  events.foldl (backoffStep cfg) s

/-- Iterate `handleRateLimitBackoff` a number of times. -/
def iterateFailures (cfg : Config) : Nat → BackoffState → BackoffState
  | 0, s => s
  | n + 1, s => iterateFailures cfg n (handleRateLimitBackoff cfg s)

/-- Stable insertion of a message into a newest-first list: the message is
placed before the first entry it is at least as new as. -/
def insertNewestFirst (m : Message) : List Message → List Message
  | [] => [m]
  | x :: xs =>
    if x.timestamp ≤ m.timestamp then m :: x :: xs
    else x :: insertNewestFirst m xs

/-- Model of `messages.sort((a, b) => new Date(b.timestamp) - new Date(a.timestamp))`:
a stable sort into newest-first (descending timestamp) order. -/
def sortNewestFirst (msgs : List Message) : List Message :=
  msgs.foldr insertNewestFirst []

/-- The delta computation of `checkAndReactToMessages` (lines 185-202):
given the cursor (`lastProcessedMessageId`) and the sorted batch, an empty
batch or an unchanged newest message yields no work; otherwise the cursor
is looked up with `findIndex`, and the delta is `slice(0, index)` when
found, `[latestMessage]` when not. -/
def computeDelta (lastId : String) (sorted : List Message) : List Message :=
  match sorted with
  | [] => []
  | latest :: _ =>
    if latest.id = lastId then []
    else
      match sorted.findIdx? (fun m => m.id == lastId) with
      | none => [latest]
      | some i => sorted.take i

/-- `shouldReactToMessage`: the uniform draw (an explicit argument here)
scaled by 100 is compared against `reactionProbability`. -/
def shouldReactToMessage (cfg : Config) (randSample : ℚ) : Bool :=
  randSample * 100 ≤ cfg.reactionProbability

/-- `calculateHumanLikeDelay`: a base random delay plus reading time of
20 ms per character capped at 3000 ms (constants from the source). -/
def calculateHumanLikeDelay (baseDelay : ℚ) (content : String) : ℚ :=
  baseDelay + min ((content.length : ℚ) * 20) 3000

/-- Whether the `message.author && message.author.bot` guard fires: only
when an author object is present and its `bot` flag is true. -/
def isBotAuthored (m : Message) : Bool :=
  match m.author with
  | some a => a.bot
  | none => false

/-- Outcome of the per-message body of the processing loop. -/
inductive MessageOutcome where
  | skippedAsBot
  | skippedByChance
  | scheduledReaction (delay : ℚ)
deriving Repr, DecidableEq

/-- The per-message body of the `for...of` loop in
`checkAndReactToMessages`: skip bot-authored messages, then apply the
probability gate, then schedule a delayed reaction. -/
def processMessage (cfg : Config) (randSample baseDelay : ℚ) (m : Message) : MessageOutcome :=
  if isBotAuthored m then .skippedAsBot
  else if ¬ shouldReactToMessage cfg randSample then .skippedByChance
  else .scheduledReaction (calculateHumanLikeDelay baseDelay m.content)

/-- Whether the loop body schedules a reaction for a message, given the
per-message random draws `f` (probability sample) and `g` (base delay). -/
def reactionScheduled (cfg : Config) (f g : Message → ℚ) (m : Message) : Bool :=
  match processMessage cfg (f m) (g m) m with
  | .scheduledReaction _ => true
  | _ => false

/-- The ids the loop schedules reactions for, in processing order. -/
def scheduledReactions (cfg : Config) (f g : Message → ℚ) (delta : List Message) : List String :=
  (delta.filter (reactionScheduled cfg f g)).map Message.id

/-- Module state read and written by a poll cycle. -/
structure BotState where
  lastProcessedMessageId : String
  isProcessing : Bool
  backoff : BackoffState
deriving Repr, DecidableEq

/-- The startup state of `src/index.js`: empty cursor, not processing,
initial backoff state. -/
def initialBotState : BotState where
  lastProcessedMessageId := ""
  isProcessing := false
  backoff := initialBackoffState defaultConfig

/-- Outcome of `discordClient.getMessagesInChannel`: a batch, or a thrown
error optionally carrying an HTTP response status. -/
inductive FetchOutcome where
  | ok (messages : List Message)
  | fetchError (responseStatus : Option Nat)
deriving Repr, DecidableEq

/-- Observable result of one invocation of the poll cycle: the state after
the cycle, how many fetches were issued, and the message ids scheduled for
reaction, in order. -/
structure CycleResult where
  state : BotState
  fetchCount : Nat
  reactions : List String
deriving Repr, DecidableEq

/-- `checkAndReactToMessages` from `src/index.js`, as a function of the
fetch outcome and the per-message random draws. The reentrancy guard
returns immediately when `isProcessing` is set; otherwise the flag is set
for the duration and cleared on every exit path (the early returns, the
catch block and the `finally` all end with `isProcessing = false`). A
thrown fetch error with HTTP status 429 is routed to
`handleRateLimitBackoff`; any other thrown error is only logged. A
successful non-empty batch is sorted newest-first; if the newest id equals
the cursor nothing happens, else the delta is computed, each delta message
is run through the reaction policy, the cursor advances to the newest id
and `handleSuccessfulOperation` is invoked. -/
def checkAndReactToMessages (cfg : Config) (fetch : FetchOutcome)
    (f g : Message → ℚ) (s : BotState) : CycleResult :=
  if s.isProcessing then
    { state := s, fetchCount := 0, reactions := [] }
  else
    match fetch with
    | .fetchError status =>
      let backoff1 := if status = some 429 then handleRateLimitBackoff cfg s.backoff else s.backoff
      { state := { s with backoff := backoff1, isProcessing := false }
        fetchCount := 1, reactions := [] }
    | .ok msgs =>
      match sortNewestFirst msgs with
      | [] => { state := { s with isProcessing := false }, fetchCount := 1, reactions := [] }
      | latest :: rest =>
        if latest.id = s.lastProcessedMessageId then
          { state := { s with isProcessing := false }, fetchCount := 1, reactions := [] }
        else
          { state :=
              { lastProcessedMessageId := latest.id
                isProcessing := false
                backoff := handleSuccessfulOperation cfg s.backoff }
            fetchCount := 1
            reactions := scheduledReactions cfg f g
              (computeDelta s.lastProcessedMessageId (latest :: rest)) }

/-- The catch block of the delayed reaction callback (lines 222-236): a
success only bumps counters; a failure with HTTP status 429 calls
`handleRateLimitBackoff`; any other failure is only logged and leaves the
backoff state untouched. -/
inductive ReactionAttemptResult where
  | success
  | failed (responseStatus : Option Nat)
deriving Repr, DecidableEq

/-- Effect of a reaction attempt's outcome on the backoff state, per the
callback's try/catch in `src/index.js`. -/
def handleReactionAttemptResult (cfg : Config) (r : ReactionAttemptResult)
    (s : BackoffState) : BackoffState :=
  match r with
  | .success => s
  | .failed status => if status = some 429 then handleRateLimitBackoff cfg s else s

/-- `changeReactionEmoji` from `src/index.js`: a truthy (non-empty)
argument overwrites `config.defaultEmoji` and returns true; a falsy one
returns false and changes nothing. -/
def changeReactionEmoji (newEmoji : String) (cfg : Config) : Bool × Config :=
  if newEmoji = "" then (false, cfg)
  else (true, { cfg with defaultEmoji := newEmoji })

/- Batteries marks the rational arithmetic operations irreducible, which
blocks kernel evaluation of the model on concrete inputs; restore
semireducibility locally so that concrete runs can be settled by decide. -/
attribute [local semireducible] Rat.mul Rat.add Rat.sub Rat.inv

/-! Concrete fixtures: the five-message batch of the spec's delta example,
newest first, with distinct ids and strictly decreasing timestamps. -/

/-- Oldest message of the example batch. -/
def msg1 : Message := ⟨"m1", none, "one", 1⟩

/-- Second message of the example batch. -/
def msg2 : Message := ⟨"m2", none, "two", 2⟩

/-- Third message of the example batch. -/
def msg3 : Message := ⟨"m3", none, "three", 3⟩

/-- Fourth message of the example batch. -/
def msg4 : Message := ⟨"m4", none, "four", 4⟩

/-- Newest message of the example batch. -/
def msg5 : Message := ⟨"m5", none, "five", 5⟩

/-- The example batch, sorted newest-first. -/
def batch5 : List Message := [msg5, msg4, msg3, msg2, msg1]

/-- A probability oracle whose draw always passes the gate. -/
def alwaysReact : Message → ℚ := fun _ => 0

/-- A base-delay oracle returning zero. -/
def zeroDelay : Message → ℚ := fun _ => 0

/-- A bot state whose cursor points at `msg3`, not mid-cycle. -/
def stateAtM3 : BotState := ⟨"m3", false, initialBackoffState defaultConfig⟩

/-- A bot state whose cursor points at `msg5`, not mid-cycle. -/
def stateAtM5 : BotState := ⟨"m5", false, initialBackoffState defaultConfig⟩

/-! Helper lemmas about the sort model. -/

/-- Inserting a message at least as new as every list entry prepends it. -/
theorem insertNewestFirst_eq_cons (m : Message) (l : List Message)
    (h : ∀ x ∈ l, x.timestamp ≤ m.timestamp) : insertNewestFirst m l = m :: l := by
  cases l with
  | nil => rfl
  | cons x xs => simp [insertNewestFirst, h x (List.mem_cons_self x xs)]

/-- Sorting a batch that is already newest-first leaves it unchanged. -/
theorem sortNewestFirst_eq_self (msgs : List Message)
    (h : msgs.Pairwise (fun a b => b.timestamp ≤ a.timestamp)) :
    sortNewestFirst msgs = msgs := by
  induction msgs with
  | nil => rfl
  | cons m xs ih =>
    rw [List.pairwise_cons] at h
    have hs : sortNewestFirst (m :: xs) = insertNewestFirst m (sortNewestFirst xs) := rfl
    rw [hs, ih h.2, insertNewestFirst_eq_cons m xs h.1]

/-- C1 (counterexample): for the spec's example batch and cursor `m3`, the
cycle schedules reactions for `m5` then `m4` — newest-first, not the
chronological `[m4, m5]` the claim requires, and the delta is
`[msg5, msg4]`, not reversed. -/
theorem c1_counterexample :
    computeDelta "m3" batch5 = [msg5, msg4] ∧
    (checkAndReactToMessages defaultConfig (.ok batch5) alwaysReact zeroDelay
      stateAtM3).reactions = ["m5", "m4"] ∧
    (["m5", "m4"] : List String) ≠ ["m4", "m5"] := by
  decide

/-- C1 (amended): when the cursor occurs in the sorted batch at index
`i > 0`, the delta is the first `i` messages of the batch in batch order
(newest-first, with no reversal into chronological order), and the
reaction policy is applied to the delta in that newest-first order. -/
theorem c1_amended_delta_in_batch_order (cfg : Config) (f g : Message → ℚ)
    (s : BotState) (msgs : List Message) (i : Nat)
    (hproc : s.isProcessing = false)
    (hsort : msgs.Pairwise (fun a b => b.timestamp ≤ a.timestamp))
    (hfind : msgs.findIdx? (fun m => m.id == s.lastProcessedMessageId) = some i)
    (hi : 0 < i) :
    computeDelta s.lastProcessedMessageId msgs = msgs.take i ∧
    (checkAndReactToMessages cfg (.ok msgs) f g s).reactions =
      scheduledReactions cfg f g (msgs.take i) := by
  cases msgs with
  | nil => simp [List.findIdx?] at hfind
  | cons latest rest =>
    have hlat : (latest.id == s.lastProcessedMessageId) = false := by
      by_contra hcon
      rw [Bool.not_eq_false] at hcon
      rw [List.findIdx?_cons, hcon] at hfind
      simp at hfind
      omega
    have hne : latest.id ≠ s.lastProcessedMessageId := by
      simpa using hlat
    have hdelta : computeDelta s.lastProcessedMessageId (latest :: rest) =
        (latest :: rest).take i := by
      simp only [computeDelta, if_neg hne, hfind]
    refine ⟨hdelta, ?_⟩
    simp only [checkAndReactToMessages, hproc, Bool.false_eq_true, if_false,
      sortNewestFirst_eq_self _ hsort, if_neg hne, hdelta]

/-- C1 (amended, witness): the amended statement instantiated on the
example batch with cursor `m3`, found at index 2. -/
theorem c1_amended_witness :
    computeDelta "m3" batch5 = batch5.take 2 ∧
    (checkAndReactToMessages defaultConfig (.ok batch5) alwaysReact zeroDelay
      stateAtM3).reactions =
      scheduledReactions defaultConfig alwaysReact zeroDelay (batch5.take 2) :=
  c1_amended_delta_in_batch_order defaultConfig alwaysReact zeroDelay stateAtM3
    batch5 2 rfl (by decide) (by decide) (by decide)

/-- C3: when the batch is non-empty and the cursor's id occurs nowhere in
it (covering startup, where the cursor is the empty string), the delta is
exactly the single newest message, and the cycle applies the reaction
policy to that one message only. -/
theorem c3_unknown_cursor_single_latest (cfg : Config) (f g : Message → ℚ)
    (s : BotState) (latest : Message) (rest : List Message)
    (hproc : s.isProcessing = false)
    (hsort : (latest :: rest).Pairwise (fun a b => b.timestamp ≤ a.timestamp))
    (habsent : ∀ m ∈ latest :: rest, m.id ≠ s.lastProcessedMessageId) :
    computeDelta s.lastProcessedMessageId (latest :: rest) = [latest] ∧
    (checkAndReactToMessages cfg (.ok (latest :: rest)) f g s).reactions =
      scheduledReactions cfg f g [latest] := by
  have hne : latest.id ≠ s.lastProcessedMessageId :=
    habsent latest (List.mem_cons_self latest rest)
  have hfind : (latest :: rest).findIdx?
      (fun m => m.id == s.lastProcessedMessageId) = none := by
    rw [List.findIdx?_eq_none_iff]
    intro x hx
    simpa using habsent x hx
  have hdelta : computeDelta s.lastProcessedMessageId (latest :: rest) = [latest] := by
    simp only [computeDelta, if_neg hne, hfind]
  refine ⟨hdelta, ?_⟩
  simp only [checkAndReactToMessages, hproc, Bool.false_eq_true, if_false,
    sortNewestFirst_eq_self _ hsort, if_neg hne, hdelta]

/-- C3 (witness): the startup state (empty cursor) against the example
batch: the delta is just `msg5`. -/
theorem c3_witness :
    computeDelta "" batch5 = [msg5] ∧
    (checkAndReactToMessages defaultConfig (.ok batch5) alwaysReact zeroDelay
      initialBotState).reactions =
      scheduledReactions defaultConfig alwaysReact zeroDelay [msg5] :=
  c3_unknown_cursor_single_latest defaultConfig alwaysReact zeroDelay
    initialBotState msg5 [msg4, msg3, msg2, msg1] rfl (by decide) (by decide)

/-- C4: when the newest id of the sorted non-empty batch equals the
cursor, the cycle is a no-op — empty delta, no reactions, state returned
exactly as it was — and a second cycle against the unchanged batch also
schedules no reactions. -/
theorem c4_noop_when_cursor_current (cfg : Config) (f g : Message → ℚ)
    (s : BotState) (latest : Message) (rest : List Message)
    (hproc : s.isProcessing = false)
    (hsort : (latest :: rest).Pairwise (fun a b => b.timestamp ≤ a.timestamp))
    (hid : latest.id = s.lastProcessedMessageId) :
    computeDelta s.lastProcessedMessageId (latest :: rest) = [] ∧
    checkAndReactToMessages cfg (.ok (latest :: rest)) f g s =
      { state := s, fetchCount := 1, reactions := [] } ∧
    (checkAndReactToMessages cfg (.ok (latest :: rest)) f g
      (checkAndReactToMessages cfg (.ok (latest :: rest)) f g s).state).reactions = [] := by
  have hdelta : computeDelta s.lastProcessedMessageId (latest :: rest) = [] := by
    simp only [computeDelta, if_pos hid]
  have hcycle : checkAndReactToMessages cfg (.ok (latest :: rest)) f g s =
      { state := s, fetchCount := 1, reactions := [] } := by
    obtain ⟨lid, ip, bo⟩ := s
    simp only at hproc
    subst hproc
    simp only [checkAndReactToMessages, Bool.false_eq_true, if_false,
      sortNewestFirst_eq_self _ hsort, if_pos hid]
  refine ⟨hdelta, hcycle, ?_⟩
  rw [hcycle, hcycle]

/-- C4 (witness): the cursor at `msg5` against the example batch: the
cycle returns the state untouched with no reactions, twice. -/
theorem c4_witness :
    computeDelta "m5" batch5 = [] ∧
    checkAndReactToMessages defaultConfig (.ok batch5) alwaysReact zeroDelay
      stateAtM5 = { state := stateAtM5, fetchCount := 1, reactions := [] } ∧
    (checkAndReactToMessages defaultConfig (.ok batch5) alwaysReact zeroDelay
      (checkAndReactToMessages defaultConfig (.ok batch5) alwaysReact zeroDelay
        stateAtM5).state).reactions = [] :=
  c4_noop_when_cursor_current defaultConfig alwaysReact zeroDelay stateAtM5
    msg5 [msg4, msg3, msg2, msg1] rfl (by decide) rfl

/-! Backoff controller invariants. -/

/-- One backoff step preserves the interval bounds, for any configuration
with ordered clamps and a multiplier of at least one. -/
theorem backoffStep_bounds (cfg : Config) (e : BackoffEvent) (s : BackoffState)
    (hbase : 0 ≤ cfg.baseCheckInterval)
    (hbm : cfg.baseCheckInterval ≤ cfg.maxBackoffInterval)
    (hmult : 1 ≤ cfg.backoffMultiplier)
    (h1 : cfg.baseCheckInterval ≤ s.currentInterval)
    (h2 : s.currentInterval ≤ cfg.maxBackoffInterval) :
    cfg.baseCheckInterval ≤ (backoffStep cfg s e).currentInterval ∧
    (backoffStep cfg s e).currentInterval ≤ cfg.maxBackoffInterval := by
  cases e with
  | failure =>
    simp only [backoffStep, handleRateLimitBackoff]
    split
    · refine ⟨le_min ?_ hbm, min_le_right _ _⟩
      calc cfg.baseCheckInterval ≤ s.currentInterval := h1
        _ = s.currentInterval * 1 := (mul_one _).symm
        _ ≤ s.currentInterval * cfg.backoffMultiplier :=
            mul_le_mul_of_nonneg_left hmult (le_trans hbase h1)
    · exact ⟨h1, h2⟩
  | success =>
    simp only [backoffStep, handleSuccessfulOperation]
    split
    · split
      · refine ⟨le_max_right _ _, max_le ?_ hbm⟩
        calc s.currentInterval / cfg.backoffMultiplier ≤ s.currentInterval :=
              div_le_self (le_trans hbase h1) hmult
          _ ≤ cfg.maxBackoffInterval := h2
      · exact ⟨h1, h2⟩
    · exact ⟨h1, h2⟩

/-- Running any event sequence preserves the interval bounds. -/
theorem runBackoff_bounds (cfg : Config) (events : List BackoffEvent) (s : BackoffState)
    (hbase : 0 ≤ cfg.baseCheckInterval)
    (hbm : cfg.baseCheckInterval ≤ cfg.maxBackoffInterval)
    (hmult : 1 ≤ cfg.backoffMultiplier)
    (h1 : cfg.baseCheckInterval ≤ s.currentInterval)
    (h2 : s.currentInterval ≤ cfg.maxBackoffInterval) :
    cfg.baseCheckInterval ≤ (runBackoff cfg s events).currentInterval ∧
    (runBackoff cfg s events).currentInterval ≤ cfg.maxBackoffInterval := by
  induction events generalizing s with
  | nil => exact ⟨h1, h2⟩
  | cons e es ih =>
    have hb := backoffStep_bounds cfg e s hbase hbm hmult h1 h2
    exact ih (backoffStep cfg s e) hb.1 hb.2

/-- C5: from the initial backoff state, every state reachable by any
sequence of onFailure and onSuccess calls keeps the polling interval
within the base/max clamp and the error count non-negative. -/
theorem c5_backoff_invariant (cfg : Config) (events : List BackoffEvent)
    (hbase : 0 ≤ cfg.baseCheckInterval)
    (hbm : cfg.baseCheckInterval ≤ cfg.maxBackoffInterval)
    (hmult : 1 ≤ cfg.backoffMultiplier) :
    cfg.baseCheckInterval ≤ (runBackoff cfg (initialBackoffState cfg) events).currentInterval ∧
    (runBackoff cfg (initialBackoffState cfg) events).currentInterval ≤ cfg.maxBackoffInterval ∧
    0 ≤ (runBackoff cfg (initialBackoffState cfg) events).consecutiveErrors := by
  have h := runBackoff_bounds cfg events (initialBackoffState cfg) hbase hbm hmult
    le_rfl hbm
  exact ⟨h.1, h.2, Nat.zero_le _⟩

/-- C5 (witness): the invariant instantiated on the source configuration
and a concrete failure/success burst. -/
theorem c5_witness :
    defaultConfig.baseCheckInterval ≤
      (runBackoff defaultConfig (initialBackoffState defaultConfig)
        [.failure, .failure, .failure, .failure, .success, .failure]).currentInterval ∧
    (runBackoff defaultConfig (initialBackoffState defaultConfig)
        [.failure, .failure, .failure, .failure, .success, .failure]).currentInterval ≤
      defaultConfig.maxBackoffInterval ∧
    0 ≤ (runBackoff defaultConfig (initialBackoffState defaultConfig)
        [.failure, .failure, .failure, .failure, .success, .failure]).consecutiveErrors :=
  c5_backoff_invariant defaultConfig
    [.failure, .failure, .failure, .failure, .success, .failure]
    (by decide) (by decide) (by decide)

/-- Once the interval is at most the maximum, no amount of further
failures pushes it beyond the maximum. -/
theorem iterateFailures_interval_le (cfg : Config) (n : Nat) (s : BackoffState)
    (h : s.currentInterval ≤ cfg.maxBackoffInterval) :
    (iterateFailures cfg n s).currentInterval ≤ cfg.maxBackoffInterval := by
  induction n generalizing s with
  | zero => exact h
  | succ n ih =>
    apply ih
    simp only [handleRateLimitBackoff]
    split
    · exact min_le_right _ _
    · exact h

/-- C6: with the threshold at 3 and the error count starting at 0, the
first two failures leave the interval untouched, the third multiplies it
by the backoff multiplier exactly once (clamped at the maximum), and any
number of further failures keeps it no larger than the maximum. -/
theorem c6_threshold_backoff (cfg : Config) (i0 : ℚ)
    (hth : cfg.consecutiveErrorThreshold = 3) :
    (handleRateLimitBackoff cfg ⟨0, i0⟩).currentInterval = i0 ∧
    (handleRateLimitBackoff cfg (handleRateLimitBackoff cfg ⟨0, i0⟩)).currentInterval = i0 ∧
    (handleRateLimitBackoff cfg (handleRateLimitBackoff cfg
      (handleRateLimitBackoff cfg ⟨0, i0⟩))).currentInterval =
      min (i0 * cfg.backoffMultiplier) cfg.maxBackoffInterval ∧
    ∀ n : Nat, (iterateFailures cfg n (handleRateLimitBackoff cfg (handleRateLimitBackoff cfg
      (handleRateLimitBackoff cfg ⟨0, i0⟩)))).currentInterval ≤ cfg.maxBackoffInterval := by
  have h1 : handleRateLimitBackoff cfg ⟨0, i0⟩ = ⟨1, i0⟩ := by
    simp [handleRateLimitBackoff, hth]
  have h2 : handleRateLimitBackoff cfg ⟨1, i0⟩ = ⟨2, i0⟩ := by
    simp [handleRateLimitBackoff, hth]
  have h3 : handleRateLimitBackoff cfg ⟨2, i0⟩ =
      ⟨3, min (i0 * cfg.backoffMultiplier) cfg.maxBackoffInterval⟩ := by
    simp [handleRateLimitBackoff, hth]
  rw [h1, h2, h3]
  refine ⟨rfl, rfl, rfl, fun n => iterateFailures_interval_le cfg n _ (min_le_right _ _)⟩

/-- C6 (witness): the threshold behavior on the source configuration with
the base interval, iterated ten further failures. -/
theorem c6_witness :
    (handleRateLimitBackoff defaultConfig ⟨0, 8000⟩).currentInterval = 8000 ∧
    (handleRateLimitBackoff defaultConfig
      (handleRateLimitBackoff defaultConfig ⟨0, 8000⟩)).currentInterval = 8000 ∧
    (handleRateLimitBackoff defaultConfig (handleRateLimitBackoff defaultConfig
      (handleRateLimitBackoff defaultConfig ⟨0, 8000⟩))).currentInterval =
      min (8000 * defaultConfig.backoffMultiplier) defaultConfig.maxBackoffInterval ∧
    (iterateFailures defaultConfig 10 (handleRateLimitBackoff defaultConfig
      (handleRateLimitBackoff defaultConfig (handleRateLimitBackoff defaultConfig
        ⟨0, 8000⟩)))).currentInterval ≤ defaultConfig.maxBackoffInterval := by
  have h := c6_threshold_backoff defaultConfig 8000 rfl
  exact ⟨h.1, h.2.1, h.2.2.1, h.2.2.2 10⟩

/-- C7 (counterexample): the state with zero consecutive errors and a
16000 ms interval is reachable (four failures then one success from the
initial state of the source configuration), its interval is strictly
above the 8000 ms base, yet onSuccess leaves it at 16000 ms instead of
dividing it down: the reduction is gated on a positive error count. -/
theorem c7_counterexample :
    runBackoff defaultConfig (initialBackoffState defaultConfig)
      [.failure, .failure, .failure, .failure, .success] =
      { consecutiveErrors := 0, currentInterval := 16000 } ∧
    defaultConfig.baseCheckInterval < 16000 ∧
    handleSuccessfulOperation defaultConfig
      { consecutiveErrors := 0, currentInterval := 16000 } =
      { consecutiveErrors := 0, currentInterval := 16000 } := by
  decide

/-- C7 (amended): onSuccess acts only when the consecutive-error count is
positive; in that case it resets the count and, exactly when the interval
is above base, divides it by the multiplier clamped below at the base.
When the count is already zero it is a no-op even above baseline. -/
theorem c7_amended_success_gated_on_errors (cfg : Config) (s : BackoffState) :
    (s.consecutiveErrors = 0 → handleSuccessfulOperation cfg s = s) ∧
    (0 < s.consecutiveErrors →
      (handleSuccessfulOperation cfg s).consecutiveErrors = 0 ∧
      (handleSuccessfulOperation cfg s).currentInterval =
        if cfg.baseCheckInterval < s.currentInterval then
          max (s.currentInterval / cfg.backoffMultiplier) cfg.baseCheckInterval
        else s.currentInterval) := by
  constructor
  · intro h
    simp [handleSuccessfulOperation, h]
  · intro h
    simp only [handleSuccessfulOperation, if_pos h]
    split
    · exact ⟨rfl, by simp_all⟩
    · exact ⟨rfl, by simp_all⟩

/-- C7 (amended, witness): instantiated at a backed-off state with
pending errors and at the reachable zero-error backed-off state. -/
theorem c7_amended_witness :
    handleSuccessfulOperation defaultConfig
      { consecutiveErrors := 0, currentInterval := 16000 } =
      { consecutiveErrors := 0, currentInterval := 16000 } ∧
    (handleSuccessfulOperation defaultConfig
      { consecutiveErrors := 4, currentInterval := 32000 }).consecutiveErrors = 0 ∧
    (handleSuccessfulOperation defaultConfig
      { consecutiveErrors := 4, currentInterval := 32000 }).currentInterval =
      if defaultConfig.baseCheckInterval < 32000 then
        max ((32000 : ℚ) / defaultConfig.backoffMultiplier) defaultConfig.baseCheckInterval
      else 32000 :=
  ⟨(c7_amended_success_gated_on_errors defaultConfig
      { consecutiveErrors := 0, currentInterval := 16000 }).1 rfl,
   (c7_amended_success_gated_on_errors defaultConfig
      { consecutiveErrors := 4, currentInterval := 32000 }).2 (by decide)⟩

/-- C2 (counterexample): a reaction attempt failing with HTTP 500 leaves
the consecutive-error count at 0, while the onFailure path
(`handleRateLimitBackoff`) would have raised it to 1; a fetch failing
without a 429 status likewise leaves the backoff state untouched. Non-429
errors are only logged, not reported to the backoff controller. -/
theorem c2_counterexample :
    (handleReactionAttemptResult defaultConfig (.failed (some 500))
      (initialBackoffState defaultConfig)).consecutiveErrors = 0 ∧
    (handleRateLimitBackoff defaultConfig
      (initialBackoffState defaultConfig)).consecutiveErrors = 1 ∧
    (checkAndReactToMessages defaultConfig (.fetchError (some 500)) alwaysReact
      zeroDelay initialBotState).state.backoff.consecutiveErrors = 0 := by
  decide

/-- C2 (amended): only failures carrying HTTP status 429 are reported to
the backoff controller; a reaction attempt or fetch that fails with any
other error is logged and leaves the backoff state exactly unchanged. -/
theorem c2_amended_only_429_reported (cfg : Config) (s : BackoffState)
    (status : Option Nat) (hs : status ≠ some 429)
    (bs : BotState) (hproc : bs.isProcessing = false) (f g : Message → ℚ) :
    handleReactionAttemptResult cfg (.failed status) s = s ∧
    handleReactionAttemptResult cfg (.failed (some 429)) s =
      handleRateLimitBackoff cfg s ∧
    (checkAndReactToMessages cfg (.fetchError status) f g bs).state.backoff =
      bs.backoff ∧
    (checkAndReactToMessages cfg (.fetchError (some 429)) f g bs).state.backoff =
      handleRateLimitBackoff cfg bs.backoff := by
  refine ⟨?_, ?_, ?_, ?_⟩
  · simp [handleReactionAttemptResult, hs]
  · simp [handleReactionAttemptResult]
  · simp [checkAndReactToMessages, hproc, hs]
  · simp [checkAndReactToMessages, hproc]

/-- C2 (amended, witness): instantiated at HTTP 500 against the startup
state. -/
theorem c2_amended_witness :
    handleReactionAttemptResult defaultConfig (.failed (some 500))
      (initialBackoffState defaultConfig) = initialBackoffState defaultConfig ∧
    handleReactionAttemptResult defaultConfig (.failed (some 429))
      (initialBackoffState defaultConfig) =
      handleRateLimitBackoff defaultConfig (initialBackoffState defaultConfig) ∧
    (checkAndReactToMessages defaultConfig (.fetchError (some 500)) alwaysReact
      zeroDelay initialBotState).state.backoff = initialBotState.backoff ∧
    (checkAndReactToMessages defaultConfig (.fetchError (some 429)) alwaysReact
      zeroDelay initialBotState).state.backoff =
      handleRateLimitBackoff defaultConfig initialBotState.backoff :=
  c2_amended_only_429_reported defaultConfig (initialBackoffState defaultConfig)
    (some 500) (by decide) initialBotState rfl alwaysReact zeroDelay

/-- C8 (counterexample): the exported `changeReactionEmoji` mutates the
configuration after startup: called with a non-empty emoji it overwrites
`defaultEmoji`, so not every operation leaves every configuration field
unchanged. -/
theorem c8_counterexample :
    (changeReactionEmoji "👍" defaultConfig).2.defaultEmoji = "👍" ∧
    defaultConfig.defaultEmoji = "🔥" ∧
    (changeReactionEmoji "👍" defaultConfig).2 ≠ defaultConfig := by
  decide

/-- C8 (amended): the only post-startup mutation of the configuration is
the exported `changeReactionEmoji`, and it touches only `defaultEmoji`: a
truthy (non-empty) argument overwrites that one field and returns true, a
falsy one changes nothing and returns false, and every other
configuration field is left unchanged in both cases. -/
theorem c8_amended_only_emoji_mutable (cfg : Config) (e : String) :
    (e ≠ "" → changeReactionEmoji e cfg = (true, { cfg with defaultEmoji := e })) ∧
    (e = "" → changeReactionEmoji e cfg = (false, cfg)) ∧
    (changeReactionEmoji e cfg).2.channelId = cfg.channelId ∧
    (changeReactionEmoji e cfg).2.reactionProbability = cfg.reactionProbability ∧
    (changeReactionEmoji e cfg).2.minReactionDelay = cfg.minReactionDelay ∧
    (changeReactionEmoji e cfg).2.maxReactionDelay = cfg.maxReactionDelay ∧
    (changeReactionEmoji e cfg).2.baseCheckInterval = cfg.baseCheckInterval ∧
    (changeReactionEmoji e cfg).2.intervalVariation = cfg.intervalVariation ∧
    (changeReactionEmoji e cfg).2.consecutiveErrorThreshold =
      cfg.consecutiveErrorThreshold ∧
    (changeReactionEmoji e cfg).2.backoffMultiplier = cfg.backoffMultiplier ∧
    (changeReactionEmoji e cfg).2.maxBackoffInterval = cfg.maxBackoffInterval := by
  by_cases h : e = ""
  · subst h; simp [changeReactionEmoji]
  · simp [changeReactionEmoji, h]

/-- C8 (amended, witness): instantiated at a non-empty and at the empty
emoji argument. -/
theorem c8_amended_witness :
    changeReactionEmoji "👍" defaultConfig =
      (true, { defaultConfig with defaultEmoji := "👍" }) ∧
    changeReactionEmoji "" defaultConfig = (false, defaultConfig) :=
  ⟨(c8_amended_only_emoji_mutable defaultConfig "👍").1 (by decide),
   (c8_amended_only_emoji_mutable defaultConfig "").2.1 rfl⟩

/-- C9: if the busy flag is set when the cycle is invoked, the call is a
no-op — the state is returned untouched and no fetch is issued; if the
flag is clear, the cycle issues exactly one fetch and on every exit path
(empty batch, unchanged newest message, full processing, thrown fetch
error) finishes with the busy flag clear. -/
theorem c9_reentrancy_guard (cfg : Config) (fetch : FetchOutcome)
    (f g : Message → ℚ) (s : BotState) :
    (s.isProcessing = true →
      checkAndReactToMessages cfg fetch f g s =
        { state := s, fetchCount := 0, reactions := [] }) ∧
    (s.isProcessing = false →
      (checkAndReactToMessages cfg fetch f g s).state.isProcessing = false ∧
      (checkAndReactToMessages cfg fetch f g s).fetchCount = 1) := by
  constructor
  · intro h
    simp [checkAndReactToMessages, h]
  · intro h
    cases fetch with
    | fetchError status => simp [checkAndReactToMessages, h]
    | ok msgs =>
      simp only [checkAndReactToMessages, h, Bool.false_eq_true, if_false]
      cases sortNewestFirst msgs with
      | nil => simp
      | cons latest rest =>
        by_cases hid : latest.id = s.lastProcessedMessageId <;> simp [hid]

/-- A state caught mid-cycle: the busy flag is set. -/
def busyState : BotState := ⟨"", true, initialBackoffState defaultConfig⟩

/-- C9 (witness): a concurrent invocation against a busy state returns
immediately with no fetch; a normal invocation fetches once and clears
the flag. -/
theorem c9_witness :
    checkAndReactToMessages defaultConfig (.ok batch5) alwaysReact zeroDelay
      busyState = { state := busyState, fetchCount := 0, reactions := [] } ∧
    ((checkAndReactToMessages defaultConfig (.ok batch5) alwaysReact zeroDelay
        initialBotState).state.isProcessing = false ∧
      (checkAndReactToMessages defaultConfig (.ok batch5) alwaysReact zeroDelay
        initialBotState).fetchCount = 1) :=
  ⟨(c9_reentrancy_guard defaultConfig (.ok batch5) alwaysReact zeroDelay
      busyState).1 rfl,
   (c9_reentrancy_guard defaultConfig (.ok batch5) alwaysReact zeroDelay
      initialBotState).2 rfl⟩

/-- C10: a message without an author object is never skipped by the
bot-author exclusion — whatever the random draws, the outcome is not
`skippedAsBot` — and when its probability draw passes the gate, it is
scheduled for a reaction in any delta containing it. -/
theorem c10_absent_author_not_excluded (cfg : Config) (f g : Message → ℚ)
    (m : Message) (h : m.author = none) :
    (∀ q d : ℚ, processMessage cfg q d m ≠ .skippedAsBot) ∧
    (shouldReactToMessage cfg (f m) = true →
      ∀ delta : List Message, m ∈ delta →
        m.id ∈ scheduledReactions cfg f g delta) := by
  have hbot : isBotAuthored m = false := by simp [isBotAuthored, h]
  constructor
  · intro q d
    simp only [processMessage, hbot, Bool.false_eq_true, if_false]
    split <;> simp
  · intro hreact delta hmem
    have hsched : reactionScheduled cfg f g m = true := by
      simp [reactionScheduled, processMessage, hbot, hreact]
    exact List.mem_map.mpr ⟨m, List.mem_filter.mpr ⟨hmem, hsched⟩, rfl⟩

/-- C10 (witness): `msg5` has no author object; it is not excluded and is
scheduled for a reaction out of the example batch. -/
theorem c10_witness :
    processMessage defaultConfig 0 0 msg5 ≠ .skippedAsBot ∧
    msg5.id ∈ scheduledReactions defaultConfig alwaysReact zeroDelay batch5 :=
  ⟨(c10_absent_author_not_excluded defaultConfig alwaysReact zeroDelay msg5
      rfl).1 0 0,
   (c10_absent_author_not_excluded defaultConfig alwaysReact zeroDelay msg5
      rfl).2 (by decide) batch5 (by decide)⟩

end AutoReactionBot
